import Mathlib

/-!
Verification of the TestRail coverage pipeline (`src/transformer.py`,
`src/metrics.py`, `src/config.py`).

The transformer and metrics modules are embedded shallowly:

* Raw pandas cell values are modelled by `PyVal` (missing/NaN, integers,
  strings and lists; floats only ever reach the pipeline as numeric strings,
  so they are represented through `PyVal.str`).
* `int(float(v))` with its surrounding `try/except` is modelled by
  `toIntFloat?` / `intOfFloatStr?`, which accept plain decimal literals
  (optional sign, digits, optional single decimal point) and truncate toward
  zero; exponent/inf/nan spellings never occur in this data set.
* Python dictionaries from `config.py` are association lists and `dict.get`
  is `List.lookup`.
* `pandas.Series.str.contains` compiles its argument as a regular
  expression (`regex=True` is the pandas default).  The fixed pattern
  `Automated -` used by the metrics is a pure literal.  The epic search term
  is arbitrary user text, so its regex semantics is modelled only on the
  fragment of patterns built from literal characters and the `.`
  metacharacter (`reMatchAt`/`reSearchB`, case-insensitive under
  `case=False`); `filter_epic_by_search` applies the model strictly under a
  guard for that fragment and otherwise returns the pivot unchanged — see
  its doc comment for what is and is not asserted there.
* A data frame is a column list plus a list of rows (association lists from
  column name to `PyVal`); a cell absent from a row is NaN.
-/

/-- A raw pandas cell value.  `PyVal.none` stands for both Python `None` and
NaN (pandas treats them alike through `pd.isna`). -/
inductive PyVal where
  | none : PyVal
  | int : Int → PyVal
  | str : String → PyVal
  | list : List PyVal → PyVal

/-- `pd.isna` on a scalar cell. -/
def pyIsNa : PyVal → Bool
  | PyVal.none => true
  | _ => false

/-- Python `str(v)`.  The rendering of a nested list is never inspected by
the pipeline (lists only occur as top-level country values), so it is kept
abstract. -/
def pyStr : PyVal → String
  | PyVal.none => "None"
  | PyVal.int n => toString n
  | PyVal.str _s => _s
  | PyVal.list _ => "[list]"

/-- ASCII whitespace, as stripped by Python `str.strip()` / `float()`. -/
def isSpaceB (c : Char) : Bool := c == ' ' || c == '\t' || c == '\n' || c == '\r'

/-- Drop leading and trailing whitespace from a character list. -/
def trimChars (cs : List Char) : List Char :=
  ((cs.dropWhile isSpaceB).reverse.dropWhile isSpaceB).reverse

/-- Python `s.strip()`.  (Core's `String.trim` is not used because its
byte-position loops do not reduce inside the kernel.) -/
def strStrip (s : String) : String := String.mk (trimChars s.toList)

/-- Python `s.lower()` for the ASCII data of this pipeline. -/
def strLower (s : String) : String := String.mk (s.toList.map Char.toLower)

/-- Numeric value of a digit string (most significant digit first). -/
def digitsVal (cs : List Char) : Nat :=
  cs.foldl (fun a c => a * 10 + (c.toNat - 48)) 0

/-- Model of Python `int(float(s))` for plain decimal literals: optional
surrounding whitespace, optional sign, a digit string with at most one
decimal point and at least one digit; the value is truncated toward zero.
Any other string raises `ValueError` in Python, modelled as `none`. -/
def intOfFloatStr? (s : String) : Option Int :=
  let cs := trimChars s.toList
  let signNeg : Bool :=
    match cs with
    | '-' :: _ => true
    | _ => false
  let cs2 :=
    match cs with
    | '-' :: rest => rest
    | '+' :: rest => rest
    | _ => cs
  let ip := cs2.takeWhile Char.isDigit
  let rest := cs2.dropWhile Char.isDigit
  let ok : Bool :=
    match rest with
    | [] => !ip.isEmpty
    | '.' :: frac => frac.all Char.isDigit && (!ip.isEmpty || !frac.isEmpty)
    | _ => false
  if ok then
    let n := digitsVal ip
    some (if signNeg then -(n : Int) else (n : Int))
  else
    Option.none

/-- Model of `int(float(val))` under `try/except (ValueError, TypeError)`:
integers pass through, strings are parsed, anything else raises and is
caught. -/
def toIntFloat? : PyVal → Option Int
  | PyVal.int n => some n
  | PyVal.str s => intOfFloatStr? s
  | _ => Option.none

/-- `pat` is a prefix of `s` (character lists). -/
def isPrefixB : List Char → List Char → Bool
  | [], _ => true
  | _ :: _, [] => false
  | p :: ps, c :: cs => p == c && isPrefixB ps cs

/-- `pat` occurs as a contiguous substring of `s` (character lists);
Python's `pat in s`. -/
def isSubstrB (pat : List Char) : List Char → Bool
  | [] => pat.isEmpty
  | c :: cs => isPrefixB pat (c :: cs) || isSubstrB pat cs

/-- Python `pat in s` on strings. -/
def strContains (s pat : String) : Bool := isSubstrB pat.toList s.toList

/-- Case-insensitive substring containment (the spec's reading of the epic
search filter). -/
def containsCI (pat s : String) : Bool :=
  isSubstrB (pat.toList.map Char.toLower) (s.toList.map Char.toLower)

/-- `re` fragment: does the pattern match the text starting at its head?
A pattern character is either the `.` metacharacter (any character) or a
literal compared case-insensitively (`re.IGNORECASE`, from `case=False`). -/
def reMatchAt : List Char → List Char → Bool
  | [], _ => true
  | _ :: _, [] => false
  | p :: ps, c :: cs => (p == '.' || p.toLower == c.toLower) && reMatchAt ps cs

/-- `re.search` with `re.IGNORECASE` for patterns built from literal
characters and `.`: the pattern matches at some position of the text. -/
def reSearchB (pat : List Char) : List Char → Bool
  | [] => reMatchAt pat []
  | c :: cs => reMatchAt pat (c :: cs) || reSearchB pat cs

/-- String version of `reSearchB`: `Series.str.contains(pat, case=False)`
on one cell, valid only for patterns inside the literal-plus-`.` fragment —
every use is guarded by `inLiteralDotFragment`. -/
def reSearchStr (pat s : String) : Bool := reSearchB pat.toList s.toList

/-- The special characters of Python regular expressions:
`. ^ $ * + ? [ ] \ | ( )` and the two curly braces (written as escapes). -/
def regexSpecialChars : List Char := ".^$*+?[]\\|()\x7b\x7d".toList

/-- Patterns whose only special character is `.`: the fragment on which the
regex model is exact.  Every such pattern is a valid Python regex, so the
source's `try` can never raise on it. -/
def inLiteralDotFragment (pat : String) : Bool :=
  pat.toList.all (fun c => c == '.' || !regexSpecialChars.contains c)

/-! ### Configuration tables (`src/config.py`) -/

def COUNTRY_MAPPINGS : List (String × List (String × String)) :=
  [("Marionnaud",
    [("3", "MRN"), ("9", "MFR"), ("10", "MCH"), ("11", "MAT"), ("12", "MRO"),
     ("13", "MIT"), ("14", "MCZ"), ("15", "MSK"), ("16", "MHU"),
     ("22", "MCH_SPR"), ("23", "MAT_SPR"), ("24", "MRO_SPR"), ("25", "MIT_SPR"),
     ("26", "MCZ_SPR"), ("27", "MSK_SPR"), ("28", "MHU_SPR")]),
   ("Drogas", [("5", "LT"), ("6", "LV"), ("7", "RU")])]

def PRIORITY_MAPPINGS : List (Int × String) :=
  [(3, "High"), (4, "Highest"), (5, "Medium")]

def DEVICE_MAPPINGS : List (Int × String) :=
  [(1, "Desktop"), (2, "Mobile"), (3, "Both")]

def JAVA_STATUS_MAPPINGS : List (Int × String) :=
  [(1, "Not Automated"), (2, "To Be Automated"), (3, "Automated"), (4, "N/A"),
   (5, "To Be Automated"), (6, "To Be Automated"), (7, "Not Automated"),
   (8, "Automated"), (9, "Automated"), (10, "To Be Automated")]

def TESTIM_STATUS_MAPPINGS : List (Int × String) :=
  [(1, "Not Automated"), (2, "To Be Automated"), (3, "Automated"), (4, "N/A"),
   (5, "To Be Automated"), (6, "To Be Automated"), (7, "Not Automated"),
   (8, "Automated"), (9, "Automated")]

def FIELD_VARIATIONS : List (String × List String) :=
  [("java", ["custom_automation_status", "automation_status"]),
   ("testim_desktop",
    ["custom_case_automation_status_testim",
     "custom_automation_status_testim_desktop_view",
     "automation_status_testim_desktop"]),
   ("testim_mobile",
    ["custom_case_automation_status_mobile_view",
     "custom_automation_status_testim_mobile_view",
     "automation_status_testim_mobile"]),
   ("epic", ["custom_epic_reference", "custom_epicreference", "custom_epic", "refs"]),
   ("device", ["custom_device", "device", "custom_devices"]),
   ("country", ["multi_countries", "custom_multi_countries", "countries"]),
   ("priority", ["priority_id", "priority", "custom_priority"])]

/-! ### Value mappers (`src/transformer.py`) -/

/-- `_map_field_value` from the source: direct dictionary lookup (only an
integer value can hit the integer-keyed dictionary directly), then the
`int(float(val))` retry, else the default. -/
def map_field_value (val : PyVal) (mapping : List (Int × String)) (default : String) : String :=
  if pyIsNa val then default
  else
    match (match val with | PyVal.int n => mapping.lookup n | _ => Option.none) with
    | some s => s
    | Option.none =>
      match toIntFloat? val with
      | some n => (mapping.lookup n).getD default
      | Option.none => default

/-- `map_country_id` from the source. -/
def map_country_id (val : PyVal) (bu_name : String) : String :=
  let country_map := (COUNTRY_MAPPINGS.lookup bu_name).getD []
  match val with
  | PyVal.list l =>
    if l.isEmpty then "Unknown"
    else
      String.intercalate ", "
        (l.map (fun v => (country_map.lookup (strStrip (pyStr v))).getD ("ID_" ++ pyStr v)))
  | v =>
    if pyIsNa v then "Unknown"
    else
      let val_str := strStrip (pyStr v)
      match country_map.lookup val_str with
      | some c => c
      | Option.none =>
        match intOfFloatStr? val_str with
        | some n =>
          match country_map.lookup (toString n) with
          | some c => c
          | Option.none => "ID_" ++ val_str
        | Option.none => "ID_" ++ val_str

/-- `map_priority` from the source. -/
def map_priority (val : PyVal) : String :=
  if pyIsNa val then "Unknown"
  else
    match toIntFloat? val with
    | some n => (PRIORITY_MAPPINGS.lookup n).getD "Unknown"
    | Option.none =>
      let val_str := strLower (strStrip (pyStr val))
      if strContains val_str "highest" then "Highest"
      else if strContains val_str "high" then "High"
      else if strContains val_str "medium" then "Medium"
      else "Unknown"

/-- `map_device_status` from the source. -/
def map_device_status (val : PyVal) : String :=
  map_field_value val DEVICE_MAPPINGS "Both"

/-- `map_automation_status_java` from the source. -/
def map_automation_status_java (val : PyVal) : Option String :=
  if pyIsNa val then Option.none
  else
    match toIntFloat? val with
    | some n => JAVA_STATUS_MAPPINGS.lookup n
    | Option.none => Option.none

/-- `map_automation_status_testim` from the source. -/
def map_automation_status_testim (val : PyVal) : Option String :=
  if pyIsNa val then Option.none
  else
    match toIntFloat? val with
    | some n => TESTIM_STATUS_MAPPINGS.lookup n
    | Option.none => Option.none

/-- `determine_final_status` from the source.  In Python a comparison of
`None` with a string is `False`, which the `Option` equality reproduces. -/
def determine_final_status (java_status testim_desktop testim_mobile : Option String) : String :=
  if testim_desktop = some "Automated" ∧ testim_mobile = some "Automated" then
    "Automated - Testim Both"
  else if testim_desktop = some "Automated" ∧ java_status = some "Automated" then
    "Automated - Testim Desktop"
  else if testim_mobile = some "Automated" ∧ java_status = some "Automated" then
    "Automated - Testim Mobile"
  else if testim_desktop = some "Automated" then "Automated - Testim Desktop"
  else if testim_mobile = some "Automated" then "Automated - Testim Mobile"
  else if java_status = some "Automated" then "Automated - Java"
  else if java_status = some "N/A" ∨ testim_desktop = some "N/A" ∨ testim_mobile = some "N/A" then
    "N/A"
  else if java_status = some "To Be Automated" ∨ testim_desktop = some "To Be Automated" ∨
      testim_mobile = some "To Be Automated" then
    "To Be Automated"
  else "Not Automated"

/-- `find_field` from the source: first alias of the category present among
the columns. -/
def find_field (columns : List String) (field_type : String) : Option String :=
  ((FIELD_VARIATIONS.lookup field_type).getD []).find? (fun f => columns.contains f)

/-! ### Pipeline orchestrator (`process` in `src/transformer.py`) -/

/-- The grouping key of the summary: one canonical case without its count. -/
structure CaseKey where
  epic : String
  status : String
  device : String
  country : String
  priority : String
deriving DecidableEq, Repr

/-- One row of the grouped summary table
(`df.groupby([...]).size().reset_index(name='Count')`). -/
structure SummaryRow where
  epic : String
  status : String
  device : String
  country : String
  priority : String
  count : Nat
deriving DecidableEq, Repr

/-- A raw data frame: its columns and its rows (cells absent from a row are
NaN). -/
structure Df where
  columns : List String
  rows : List (List (String × PyVal))

/-- Cell access `df[field]` for one row. -/
def rowGet (r : List (String × PyVal)) (f : String) : PyVal :=
  (r.lookup f).getD PyVal.none

/-- The `groupby(...).size()` step: one `SummaryRow` per distinct key with
the number of occurrences.  pandas emits the groups in key-sorted order;
the spec declares the row order not significant, so first-occurrence order
is used here. -/
def groupCount (keys : List CaseKey) : List SummaryRow :=
  keys.dedup.map (fun k =>
    { epic := k.epic, status := k.status, device := k.device,
      country := k.country, priority := k.priority, count := keys.count k })

/-- `process` from the source: resolve the field aliases once, map every
row, resolve its final status, and group into counts.  An empty input or an
unresolvable primary (java) status field yields the empty table. -/
def process (df : Df) (bu_name : String) : List SummaryRow :=
  if df.rows.isEmpty then []
  else
    match find_field df.columns "java" with
    | Option.none => []
    | some java_field =>
      let testim_desktop_field := find_field df.columns "testim_desktop"
      let testim_mobile_field := find_field df.columns "testim_mobile"
      let epic_field := find_field df.columns "epic"
      let device_field := find_field df.columns "device"
      let country_field := find_field df.columns "country"
      let priority_field := find_field df.columns "priority"
      groupCount (df.rows.map (fun r =>
        let java_status := map_automation_status_java (rowGet r java_field)
        let testim_desktop_status :=
          match testim_desktop_field with
          | some f => map_automation_status_testim (rowGet r f)
          | Option.none => Option.none
        let testim_mobile_status :=
          match testim_mobile_field with
          | some f => map_automation_status_testim (rowGet r f)
          | Option.none => Option.none
        let status := determine_final_status java_status testim_desktop_status testim_mobile_status
        let epic :=
          match epic_field with
          | some f =>
            match rowGet r f with
            | PyVal.none => "No Epic Assigned"
            | v => pyStr v
          | Option.none => "No Epic Assigned"
        let device :=
          match device_field with
          | some f => map_device_status (rowGet r f)
          | Option.none => "Both"
        let country :=
          match country_field with
          | some f => map_country_id (rowGet r f) bu_name
          | Option.none => "Unknown"
        let priority :=
          match priority_field with
          | some f => map_priority (rowGet r f)
          | Option.none => "Unknown"
        { epic := epic, status := status, device := device,
          country := country, priority := priority }))

/-! ### Metrics aggregator (`src/metrics.py`) -/

/-- Total of the Count column. -/
def sumCount (df : List SummaryRow) : Nat := (df.map SummaryRow.count).sum

/-- `df[df['Status'] == s]['Count'].sum()`. -/
def statusCount (df : List SummaryRow) (s : String) : Nat :=
  sumCount (df.filter (fun r => r.status = s))

/-- Result record of `calculate_overall_metrics`. -/
structure OverallMetrics where
  total : Nat
  automated_java : Nat
  automated_testim_desktop : Nat
  automated_testim_mobile : Nat
  automated_testim_both : Nat
  total_automated : Nat
  total_testim : Nat
  to_be_automated : Nat
  not_applicable : Nat
  not_automated : Nat
  effective_total : Int
  coverage : ℚ
deriving DecidableEq, Repr

/-- `calculate_overall_metrics` from the source. -/
def calculate_overall_metrics (df : List SummaryRow) : OverallMetrics :=
  let total := sumCount df
  let automated_java := statusCount df "Automated - Java"
  let automated_testim_desktop := statusCount df "Automated - Testim Desktop"
  let automated_testim_mobile := statusCount df "Automated - Testim Mobile"
  let automated_testim_both := statusCount df "Automated - Testim Both"
  let total_automated :=
    automated_java + automated_testim_desktop + automated_testim_mobile + automated_testim_both
  let total_testim := automated_testim_desktop + automated_testim_mobile + automated_testim_both
  let to_be_automated := statusCount df "To Be Automated"
  let not_applicable := statusCount df "N/A"
  let not_automated := statusCount df "Not Automated"
  let effective_total : Int := (total : Int) - (not_applicable : Int)
  let coverage : ℚ :=
    if 0 < effective_total then (total_automated : ℚ) / (effective_total : ℚ) * 100 else 0
  { total := total, automated_java := automated_java,
    automated_testim_desktop := automated_testim_desktop,
    automated_testim_mobile := automated_testim_mobile,
    automated_testim_both := automated_testim_both,
    total_automated := total_automated, total_testim := total_testim,
    to_be_automated := to_be_automated, not_applicable := not_applicable,
    not_automated := not_automated, effective_total := effective_total,
    coverage := coverage }

/-- Result record of `calculate_testim_metrics`. -/
structure TestimMetrics where
  testim_total : Nat
  total_testim : Nat
  testim_coverage : ℚ
  desktop : Nat
  mobile : Nat
  both : Nat
  desktop_pct : ℚ
  mobile_pct : ℚ
  both_pct : ℚ
  to_be_automated : Nat
  not_automated : Nat
deriving DecidableEq, Repr

/-- `calculate_testim_metrics` from the source. -/
def calculate_testim_metrics (df : List SummaryRow) : TestimMetrics :=
  let automated_testim_desktop := statusCount df "Automated - Testim Desktop"
  let automated_testim_mobile := statusCount df "Automated - Testim Mobile"
  let automated_testim_both := statusCount df "Automated - Testim Both"
  let total_testim := automated_testim_desktop + automated_testim_mobile + automated_testim_both
  let testim_total := total_testim +
    sumCount (df.filter (fun r => r.status = "To Be Automated" ∨ r.status = "Not Automated"))
  let testim_coverage : ℚ :=
    if 0 < testim_total then (total_testim : ℚ) / (testim_total : ℚ) * 100 else 0
  let desktop_pct : ℚ :=
    if 0 < total_testim then (automated_testim_desktop : ℚ) / (total_testim : ℚ) * 100 else 0
  let mobile_pct : ℚ :=
    if 0 < total_testim then (automated_testim_mobile : ℚ) / (total_testim : ℚ) * 100 else 0
  let both_pct : ℚ :=
    if 0 < total_testim then (automated_testim_both : ℚ) / (total_testim : ℚ) * 100 else 0
  { testim_total := testim_total, total_testim := total_testim,
    testim_coverage := testim_coverage, desktop := automated_testim_desktop,
    mobile := automated_testim_mobile, both := automated_testim_both,
    desktop_pct := desktop_pct, mobile_pct := mobile_pct, both_pct := both_pct,
    to_be_automated := statusCount df "To Be Automated",
    not_automated := statusCount df "Not Automated" }

/-- Per-device slice of `calculate_device_metrics`. -/
structure DeviceMetric where
  automated : Nat
  total : Nat
  coverage : ℚ
deriving DecidableEq, Repr

/-- One iteration of the device loop in `calculate_device_metrics`. -/
def deviceMetric (df : List SummaryRow) (device : String) : DeviceMetric :=
  let device_data := df.filter (fun r => r.device = device)
  let device_automated :=
    sumCount (device_data.filter (fun r => strContains r.status "Automated -"))
  let device_total := sumCount device_data
  { automated := device_automated, total := device_total,
    coverage :=
      if 0 < device_total then (device_automated : ℚ) / (device_total : ℚ) * 100 else 0 }

/-- `calculate_device_metrics` from the source. -/
def calculate_device_metrics (df : List SummaryRow) : List (String × DeviceMetric) :=
  ["Desktop", "Mobile", "Both"].map (fun d => (d, deviceMetric df d))

/-- One row of the epic pivot produced by `calculate_epic_metrics`. -/
structure EpicPivotRow where
  epic : String
  automated : Nat
  to_be_automated : Nat
  na : Nat
  not_automated : Nat
  total : Nat
  effective_total : Int
  coverage_pct : ℚ
deriving DecidableEq, Repr

/-- Round half to even (the rounding used by numpy/pandas `round`). -/
def roundHalfEven (q : ℚ) : Int :=
  if q - ⌊q⌋ = 1 / 2 then (if 2 ∣ ⌊q⌋ then ⌊q⌋ else ⌊q⌋ + 1) else round q

/-- pandas `.round(1)`. -/
def round1 (q : ℚ) : ℚ := (roundHalfEven (q * 10) : ℚ) / 10

/-- The per-epic aggregation of `calculate_epic_metrics`
(`aggregate_epic_status` plus the derived columns).  The intermediate
`groupby(['Epic','Status'])` pre-aggregation of the source is
sum-preserving and therefore folded into the direct per-epic sums.  With
pandas floats, `Automated / 0` is `inf` or `NaN`; both are normalized to 0
by the `fillna(0).replace(inf, 0)` line, which the zero-denominator branch
reproduces (the two predicates are disjoint, so the numerator is 0 exactly
when the ratio is `NaN`). -/
def epicRow (df : List SummaryRow) (e : String) : EpicPivotRow :=
  let g := df.filter (fun r => r.epic = e)
  let automated_count := sumCount (g.filter (fun r => strContains r.status "Automated -"))
  let to_be_count := statusCount g "To Be Automated"
  let na_count := statusCount g "N/A"
  let not_auto_count := statusCount g "Not Automated"
  let total := sumCount g
  let effective_total : Int := (total : Int) - (na_count : Int)
  { epic := e, automated := automated_count, to_be_automated := to_be_count,
    na := na_count, not_automated := not_auto_count, total := total,
    effective_total := effective_total,
    coverage_pct :=
      if effective_total = 0 then 0
      else round1 ((automated_count : ℚ) / (effective_total : ℚ) * 100) }

/-- Sort key of the pivot: coverage descending. -/
def covGE (a b : EpicPivotRow) : Prop := b.coverage_pct ≤ a.coverage_pct

instance : DecidableRel covGE := fun a b =>
  inferInstanceAs (Decidable (b.coverage_pct ≤ a.coverage_pct))

instance : IsTrans EpicPivotRow covGE :=
  ⟨fun _ _ _ h1 h2 => le_trans h2 h1⟩

instance : IsTotal EpicPivotRow covGE :=
  ⟨fun a b => le_total b.coverage_pct a.coverage_pct⟩

/-- The distinct epics of the table, in the (sorted) order pandas `groupby`
produces its groups. -/
def epicKeys (df : List SummaryRow) : List String :=
  List.insertionSort (fun a b : String => a ≤ b) (df.map SummaryRow.epic).dedup

/-- `calculate_epic_metrics` from the source: the pivot table, one row per
distinct epic, sorted by coverage descending.  (The side statistics
dictionary of the source — epic count, mean coverage, threshold counts — is
not referenced by any claim and is not modelled.) -/
def calculate_epic_metrics (df : List SummaryRow) : List EpicPivotRow :=
  List.insertionSort covGE ((epicKeys df).map (epicRow df))

/-- `filter_epic_by_search` from the source.  An empty (falsy) term returns
the pivot unchanged.  A non-empty term is applied inside a `try` as a
case-insensitive regular expression (`Series.str.contains(term, case=False,
na=False)`, pandas default `regex=True`) whose `except` branch returns the
pivot unchanged.  The regex semantics is modelled exactly on the
literal-plus-`.` fragment, where the `try` provably never raises.  The
final branch returns the pivot unchanged for every other term: for a term
that is an invalid regex (such as `[`) this is the source's `except` branch
verbatim; for a term that is a valid regex outside the fragment (such as
`ab+`) it is an explicit out-of-model default — pandas would filter there,
the embedding asserts nothing, and no theorem of this development touches
such a term. -/
def filter_epic_by_search (pivot : List EpicPivotRow) (search_term : String) : List EpicPivotRow :=
  if search_term = "" then pivot
  else if inLiteralDotFragment search_term then
    pivot.filter (fun r => reSearchStr search_term r.epic)
  else pivot

/-! ### Status vocabulary and spec-side definitions -/

/-- The seven canonical final-status labels. -/
def canonicalStatuses : List String :=
  ["Automated - Java", "Automated - Testim Desktop", "Automated - Testim Mobile",
   "Automated - Testim Both", "To Be Automated", "N/A", "Not Automated"]

/-- The four `Automated - *` labels. -/
def automatedLabels : List String :=
  ["Automated - Java", "Automated - Testim Desktop", "Automated - Testim Mobile",
   "Automated - Testim Both"]

/-- A per-framework status as produced by the status mappers. -/
inductive St where
  | automated
  | toBeAutomated
  | notAutomated
  | na
deriving DecidableEq, Fintype, Repr

/-- The string form of a per-framework status. -/
def stStr : St → String
  | St.automated => "Automated"
  | St.toBeAutomated => "To Be Automated"
  | St.notAutomated => "Not Automated"
  | St.na => "N/A"

/-- Modelled from the spec: the nine-rule precedence of the Status Resolver
contract, checked top to bottom with first match winning (rule k is the
k-th `if`). -/
def resolve_final_status_spec (java secondary_desktop secondary_mobile : Option St) : String :=
  if secondary_desktop = some St.automated ∧ secondary_mobile = some St.automated then
    "Automated - Testim Both"
  else if secondary_desktop = some St.automated ∧ java = some St.automated then
    "Automated - Testim Desktop"
  else if secondary_mobile = some St.automated ∧ java = some St.automated then
    "Automated - Testim Mobile"
  else if secondary_desktop = some St.automated then "Automated - Testim Desktop"
  else if secondary_mobile = some St.automated then "Automated - Testim Mobile"
  else if java = some St.automated then "Automated - Java"
  else if java = some St.na ∨ secondary_desktop = some St.na ∨ secondary_mobile = some St.na then
    "N/A"
  else if java = some St.toBeAutomated ∨ secondary_desktop = some St.toBeAutomated ∨
      secondary_mobile = some St.toBeAutomated then
    "To Be Automated"
  else "Not Automated"

/-- Modelled from the claim wording for the priority mapper: integer codes
through the `{3: High, 4: Highest, 5: Medium}` table, non-numeric values by
case-insensitive substring matching checked in the order highest, high,
medium, and any other value — unmapped integer codes and missing values
included — Unknown. -/
def prioritySpec (val : PyVal) : String :=
  match val with
  | PyVal.none => "Unknown"
  | v =>
    match toIntFloat? v with
    | some n =>
      if n = 3 then "High"
      else if n = 4 then "Highest"
      else if n = 5 then "Medium"
      else "Unknown"
    | Option.none =>
      let val_str := strLower (strStrip (pyStr v))
      if strContains val_str "highest" then "Highest"
      else if strContains val_str "high" then "High"
      else if strContains val_str "medium" then "Medium"
      else "Unknown"

/-- The summary table of the repository's own metrics test fixture. -/
def sampleDf : List SummaryRow :=
  [{ epic := "Epic1", status := "Automated - Java", device := "Desktop",
     country := "MRN", priority := "High", count := 10 },
   { epic := "Epic1", status := "Automated - Testim Desktop", device := "Desktop",
     country := "MFR", priority := "Highest", count := 20 },
   { epic := "Epic2", status := "To Be Automated", device := "Mobile",
     country := "MRN", priority := "Medium", count := 15 },
   { epic := "Epic2", status := "Not Automated", device := "Both",
     country := "MRN", priority := "High", count := 5 },
   { epic := "Epic3", status := "N/A", device := "Desktop",
     country := "Unknown", priority := "Unknown", count := 8 }]

example : map_country_id (PyVal.str "3") "Marionnaud" = "MRN" := by decide
example : map_country_id (PyVal.str "999") "Marionnaud" = "ID_999" := by decide
example : map_country_id (PyVal.list []) "Marionnaud" = "Unknown" := by decide
example : map_priority (PyVal.int 3) = "High" := by decide
example : map_priority (PyVal.int 99) = "Unknown" := by decide
example : map_priority (PyVal.str "highest") = "Highest" := by decide
example : map_priority (PyVal.str "3.0") = "High" := by decide
example : map_device_status (PyVal.int 2) = "Mobile" := by decide
example : map_automation_status_java (PyVal.int 99) = Option.none := by decide
example : map_automation_status_java (PyVal.str "3.0") = some "Automated" := by decide
example : find_field ["automation_status", "x"] "java" = some "automation_status" := by decide

/-! ### Lemmas -/

theorem priority_lookup (n : Int) :
    (PRIORITY_MAPPINGS.lookup n).getD "Unknown" =
      if n = 3 then "High"
      else if n = 4 then "Highest"
      else if n = 5 then "Medium"
      else "Unknown" := by
  rcases eq_or_ne n 3 with h3 | h3
  · subst h3; decide
  rcases eq_or_ne n 4 with h4 | h4
  · subst h4; decide
  rcases eq_or_ne n 5 with h5 | h5
  · subst h5; decide
  have b3 : (n == 3) = false := beq_eq_false_iff_ne.mpr h3
  have b4 : (n == 4) = false := beq_eq_false_iff_ne.mpr h4
  have b5 : (n == 5) = false := beq_eq_false_iff_ne.mpr h5
  simp [PRIORITY_MAPPINGS, List.lookup, b3, b4, b5, h3, h4, h5]

theorem sumCount_perm {T T' : List SummaryRow} (h : T.Perm T') : sumCount T = sumCount T' :=
  (h.map SummaryRow.count).sum_eq

theorem sumCount_filter_perm {T T' : List SummaryRow} (h : T.Perm T') (p : SummaryRow → Bool) :
    sumCount (T.filter p) = sumCount (T'.filter p) :=
  sumCount_perm (h.filter p)

theorem statusCount_perm {T T' : List SummaryRow} (h : T.Perm T') (s : String) :
    statusCount T s = statusCount T' s :=
  sumCount_filter_perm h _

theorem sumCount_cons (r : SummaryRow) (t : List SummaryRow) :
    sumCount (r :: t) = r.count + sumCount t := by
  simp [sumCount]

theorem statusCount_cons (r : SummaryRow) (t : List SummaryRow) (s : String) :
    statusCount (r :: t) s = (if r.status = s then r.count else 0) + statusCount t s := by
  by_cases h : r.status = s <;> simp [statusCount, sumCount, List.filter_cons, h]

theorem sumCount_filter_le (p : SummaryRow → Bool) (l : List SummaryRow) :
    sumCount (l.filter p) ≤ sumCount l := by
  induction l with
  | nil => simp [sumCount]
  | cons r t ih =>
    by_cases h : p r <;> simp [sumCount_cons, List.filter_cons, h] <;> omega

/-- A row whose final status is one of the four `Automated - *` labels. -/
def isAutomatedLabel (r : SummaryRow) : Bool := r.status ∈ automatedLabels

/-- With canonical statuses, the Count column splits into the automated
rows and the three remaining status buckets. -/
theorem sumCount_split (l : List SummaryRow) (h : ∀ r ∈ l, r.status ∈ canonicalStatuses) :
    sumCount l =
      sumCount (l.filter isAutomatedLabel) +
        (statusCount l "To Be Automated" + statusCount l "N/A" +
          statusCount l "Not Automated") := by
  induction l with
  | nil => simp [sumCount, statusCount]
  | cons r t ih =>
    have hr : r.status ∈ canonicalStatuses := h r (by simp)
    have ht := ih (fun x hx => h x (by simp [hx]))
    simp only [canonicalStatuses, List.mem_cons, List.not_mem_nil, or_false] at hr
    rcases hr with h1 | h1 | h1 | h1 | h1 | h1 | h1 <;>
      first
      | (have hb : isAutomatedLabel r = true := by
           simp [isAutomatedLabel, automatedLabels, h1]
         simp [sumCount_cons, statusCount_cons, List.filter_cons, h1, hb]
         omega)
      | (have hb : isAutomatedLabel r = false := by
           simp [isAutomatedLabel, automatedLabels, h1]
         simp [sumCount_cons, statusCount_cons, List.filter_cons, h1, hb]
         omega)

/-- The automated bucket is the sum of the four exact-status buckets. -/
theorem sumCount_automated_eq (l : List SummaryRow) :
    sumCount (l.filter isAutomatedLabel) =
      statusCount l "Automated - Java" + statusCount l "Automated - Testim Desktop" +
        statusCount l "Automated - Testim Mobile" + statusCount l "Automated - Testim Both" := by
  induction l with
  | nil => simp [sumCount, statusCount]
  | cons r t ih =>
    by_cases hm : r.status ∈ automatedLabels
    · have hb : isAutomatedLabel r = true := by simp [isAutomatedLabel, hm]
      have hm' := hm
      simp only [automatedLabels, List.mem_cons, List.not_mem_nil, or_false] at hm'
      rcases hm' with h1 | h1 | h1 | h1 <;>
        simp [sumCount_cons, statusCount_cons, List.filter_cons, h1, hb] <;>
        omega
    · have hb : isAutomatedLabel r = false := by simp [isAutomatedLabel, hm]
      have h1 : r.status ≠ "Automated - Java" := by
        intro hh; exact hm (by simp [automatedLabels, hh])
      have h2 : r.status ≠ "Automated - Testim Desktop" := by
        intro hh; exact hm (by simp [automatedLabels, hh])
      have h3 : r.status ≠ "Automated - Testim Mobile" := by
        intro hh; exact hm (by simp [automatedLabels, hh])
      have h4 : r.status ≠ "Automated - Testim Both" := by
        intro hh; exact hm (by simp [automatedLabels, hh])
      simpa [sumCount_cons, statusCount_cons, List.filter_cons, hb, h1, h2, h3, h4] using ih

/-! ### Claims -/

/-- C8: for every raw priority value, integer codes map via
`{3: High, 4: Highest, 5: Medium}`; a non-numeric value falls back to
case-insensitive substring matching checked in the order highest, high,
medium; anything else — unmapped integer codes and missing values included —
yields Unknown. -/
theorem map_priority_matches_spec : ∀ val : PyVal, map_priority val = prioritySpec val := by
  intro val
  cases val with
  | none => rfl
  | int n =>
    simp [map_priority, prioritySpec, pyIsNa, toIntFloat?, priority_lookup]
  | str s =>
    simp only [map_priority, prioritySpec, pyIsNa, toIntFloat?]
    cases h : intOfFloatStr? s <;> simp [h, priority_lookup]
  | list l => rfl

/-- C3: over any summary table with canonical statuses, the overall metrics
partition the total (`total_automated + to_be_automated + not_automated +
not_applicable = total`) and the coverage is 0 at `effective_total = 0` and
exactly `total_automated / effective_total * 100` otherwise. -/
theorem calculate_overall_metrics_invariants (df : List SummaryRow)
    (h : ∀ r ∈ df, r.status ∈ canonicalStatuses) :
    (calculate_overall_metrics df).total_automated +
          (calculate_overall_metrics df).to_be_automated +
          (calculate_overall_metrics df).not_automated +
          (calculate_overall_metrics df).not_applicable =
        (calculate_overall_metrics df).total ∧
      ((calculate_overall_metrics df).effective_total = 0 →
        (calculate_overall_metrics df).coverage = 0) ∧
      ((calculate_overall_metrics df).effective_total ≠ 0 →
        (calculate_overall_metrics df).coverage =
          ((calculate_overall_metrics df).total_automated : ℚ) /
            ((calculate_overall_metrics df).effective_total : ℚ) * 100) := by
  have hsplit := sumCount_split df h
  have hauto := sumCount_automated_eq df
  have hle : statusCount df "N/A" ≤ sumCount df := sumCount_filter_le _ _
  simp only [calculate_overall_metrics]
  refine ⟨by omega, fun h0 => ?_, fun hne => ?_⟩
  · simp [h0]
  · have hpos : (0 : Int) < (sumCount df : Int) - (statusCount df "N/A" : Int) := by omega
    simp [hpos]

/-- Witness for C3 at the repository's own metrics test fixture. -/
theorem calculate_overall_metrics_invariants_witness :
    (calculate_overall_metrics sampleDf).total_automated +
          (calculate_overall_metrics sampleDf).to_be_automated +
          (calculate_overall_metrics sampleDf).not_automated +
          (calculate_overall_metrics sampleDf).not_applicable =
        (calculate_overall_metrics sampleDf).total ∧
      ((calculate_overall_metrics sampleDf).effective_total = 0 →
        (calculate_overall_metrics sampleDf).coverage = 0) ∧
      ((calculate_overall_metrics sampleDf).effective_total ≠ 0 →
        (calculate_overall_metrics sampleDf).coverage =
          ((calculate_overall_metrics sampleDf).total_automated : ℚ) /
            ((calculate_overall_metrics sampleDf).effective_total : ℚ) * 100) :=
  calculate_overall_metrics_invariants sampleDf (by decide)

theorem calculate_overall_metrics_perm {T T' : List SummaryRow} (h : T.Perm T') :
    calculate_overall_metrics T = calculate_overall_metrics T' := by
  simp only [calculate_overall_metrics, sumCount_perm h, statusCount_perm h,
    sumCount_filter_perm h]

theorem calculate_testim_metrics_perm {T T' : List SummaryRow} (h : T.Perm T') :
    calculate_testim_metrics T = calculate_testim_metrics T' := by
  simp only [calculate_testim_metrics, statusCount_perm h, sumCount_filter_perm h]

theorem deviceMetric_perm {T T' : List SummaryRow} (h : T.Perm T') (d : String) :
    deviceMetric T d = deviceMetric T' d := by
  have hg : (T.filter (fun r => decide (r.device = d))).Perm
      (T'.filter (fun r => decide (r.device = d))) := h.filter _
  simp only [deviceMetric, sumCount_perm hg, sumCount_filter_perm hg]

theorem calculate_device_metrics_perm {T T' : List SummaryRow} (h : T.Perm T') :
    calculate_device_metrics T = calculate_device_metrics T' := by
  simp only [calculate_device_metrics, deviceMetric_perm h]

theorem epicKeys_perm {T T' : List SummaryRow} (h : T.Perm T') : epicKeys T = epicKeys T' := by
  have hd : ((T.map SummaryRow.epic).dedup).Perm ((T'.map SummaryRow.epic).dedup) :=
    (h.map SummaryRow.epic).dedup
  refine List.eq_of_perm_of_sorted (r := fun a b : String => a ≤ b) ?_ ?_ ?_
  · exact (List.perm_insertionSort _ _).trans (hd.trans (List.perm_insertionSort _ _).symm)
  · exact List.sorted_insertionSort _ _
  · exact List.sorted_insertionSort _ _

theorem epicRow_perm {T T' : List SummaryRow} (h : T.Perm T') : epicRow T = epicRow T' := by
  funext e
  have hg : (T.filter (fun r => decide (r.epic = e))).Perm
      (T'.filter (fun r => decide (r.epic = e))) := h.filter _
  simp only [epicRow, statusCount, sumCount_perm hg, sumCount_filter_perm hg]

theorem calculate_epic_metrics_perm {T T' : List SummaryRow} (h : T.Perm T') :
    calculate_epic_metrics T = calculate_epic_metrics T' := by
  simp only [calculate_epic_metrics, epicKeys_perm h, epicRow_perm h]

/-- C9: each of the four Metrics Aggregator reductions gives the same
result on any permutation of the summary table. -/
theorem metrics_reductions_perm_invariant (T T' : List SummaryRow) (h : T.Perm T') :
    calculate_overall_metrics T = calculate_overall_metrics T' ∧
      calculate_testim_metrics T = calculate_testim_metrics T' ∧
      calculate_device_metrics T = calculate_device_metrics T' ∧
      calculate_epic_metrics T = calculate_epic_metrics T' :=
  ⟨calculate_overall_metrics_perm h, calculate_testim_metrics_perm h,
    calculate_device_metrics_perm h, calculate_epic_metrics_perm h⟩

/-- Witness for C9: the fixture table against its reversal. -/
theorem metrics_reductions_perm_invariant_witness :
    calculate_overall_metrics sampleDf = calculate_overall_metrics sampleDf.reverse ∧
      calculate_testim_metrics sampleDf = calculate_testim_metrics sampleDf.reverse ∧
      calculate_device_metrics sampleDf = calculate_device_metrics sampleDf.reverse ∧
      calculate_epic_metrics sampleDf = calculate_epic_metrics sampleDf.reverse :=
  metrics_reductions_perm_invariant sampleDf sampleDf.reverse (by decide)

theorem reMatchAt_eq_isPrefixB :
    ∀ pat s : List Char, (∀ c ∈ pat, c ≠ '.') →
      reMatchAt pat s = isPrefixB (pat.map Char.toLower) (s.map Char.toLower) := by
  intro pat
  induction pat with
  | nil => intro s _; cases s <;> simp [reMatchAt, isPrefixB]
  | cons p ps ih =>
    intro s hp
    cases s with
    | nil => simp [reMatchAt, isPrefixB]
    | cons c cs =>
      have hpd : (p == '.') = false := by
        simpa using hp p (by simp)
      simp [reMatchAt, isPrefixB, hpd, ih cs (fun x hx => hp x (by simp [hx]))]

theorem reSearchB_eq_isSubstrB (pat : List Char) (hp : ∀ c ∈ pat, c ≠ '.') :
    ∀ s : List Char, reSearchB pat s = isSubstrB (pat.map Char.toLower) (s.map Char.toLower) := by
  intro s
  induction s with
  | nil => cases pat <;> simp [reSearchB, reMatchAt, isSubstrB]
  | cons c cs ih => simp [reSearchB, isSubstrB, reMatchAt_eq_isPrefixB _ _ hp, ih]

/-- A pivot row carrying only its epic name (the filter inspects nothing
else). -/
def mkPivotRow (e : String) : EpicPivotRow :=
  { epic := e, automated := 0, to_be_automated := 0, na := 0, not_automated := 0,
    total := 0, effective_total := 0, coverage_pct := 0 }

/-- Counterexample to C4 as stated: the search term is compiled as a
regular expression, so the term `a.c` keeps the row named `abc` even though
`a.c` is not a substring of `abc` — the filter is not a plain substring
match. -/
theorem filter_epic_by_search_counterexample :
    filter_epic_by_search [mkPivotRow "abc"] "a.c" = [mkPivotRow "abc"] ∧
      containsCI "a.c" "abc" = false ∧
      List.filter (fun r => containsCI "a.c" r.epic) [mkPivotRow "abc"] = [] := by
  refine ⟨by decide, by decide, by decide⟩

/-- C4 (amended): an empty search term returns the pivot unchanged, and a
non-empty term containing no Python-regex special character keeps exactly
the rows whose epic name contains it as a case-insensitive substring; a
term with special characters acts as a regular expression, not a literal
substring (the counterexample), with an invalid regex returning the pivot
unchanged through the except branch. -/
theorem filter_epic_by_search_spec (pivot : List EpicPivotRow) (search_term : String) :
    (search_term = "" → filter_epic_by_search pivot search_term = pivot) ∧
      (search_term ≠ "" → (∀ c ∈ search_term.toList, c ∉ regexSpecialChars) →
        filter_epic_by_search pivot search_term =
          pivot.filter (fun r => containsCI search_term r.epic)) := by
  refine ⟨fun h0 => by simp [filter_epic_by_search, h0], fun hne hplain => ?_⟩
  have hfrag : inLiteralDotFragment search_term = true := by
    simp only [inLiteralDotFragment, List.all_eq_true]
    intro c hc
    simp [hplain c hc]
  have hdot : ∀ c ∈ search_term.toList, c ≠ '.' := by
    intro c hc hcd
    exact hplain c hc (by rw [hcd]; decide)
  simp only [filter_epic_by_search, if_neg hne, hfrag, if_true]
  refine List.filter_congr fun r _ => ?_
  simp only [reSearchStr, containsCI]
  exact reSearchB_eq_isSubstrB _ hdot _

/-- Witness for C4 at the spec's own literal example: filtering the pivot
`['Epic One', 'epic two', 'Story Three']` by `Epic` keeps exactly the first
two rows, whatever their case. -/
theorem filter_epic_by_search_spec_witness :
    filter_epic_by_search [mkPivotRow "Epic One", mkPivotRow "epic two",
          mkPivotRow "Story Three"] "Epic" =
        List.filter (fun r => containsCI "Epic" r.epic)
          [mkPivotRow "Epic One", mkPivotRow "epic two", mkPivotRow "Story Three"] ∧
      filter_epic_by_search [mkPivotRow "Epic One", mkPivotRow "epic two",
          mkPivotRow "Story Three"] "Epic" =
        [mkPivotRow "Epic One", mkPivotRow "epic two"] :=
  ⟨(filter_epic_by_search_spec
        [mkPivotRow "Epic One", mkPivotRow "epic two", mkPivotRow "Story Three"]
        "Epic").2 (by decide) (by decide),
    by decide⟩

/-- Modelled from the amended claim: the scalar path of the country mapper —
direct lookup of the stripped string form, then the float→int coercion
retry, else the synthetic `ID_` label over the stripped string. -/
def countryScalarSpec (cmap : List (String × String)) (s : String) : String :=
  let t := strStrip s
  match cmap.lookup t with
  | some c => c
  | Option.none =>
    match intOfFloatStr? t with
    | some n =>
      match cmap.lookup (toString n) with
      | some c => c
      | Option.none => "ID_" ++ t
    | Option.none => "ID_" ++ t

/-- Modelled from the amended claim: a collection element is mapped by
direct lookup of its stripped string form only — no numeric coercion retry —
and an unmapped element yields `ID_` plus the raw element's string form. -/
def countryElemSpec (cmap : List (String × String)) (v : PyVal) : String :=
  match cmap.lookup (strStrip (pyStr v)) with
  | some c => c
  | Option.none => "ID_" ++ pyStr v

theorem countryElemSpec_eq (cmap : List (String × String)) (v : PyVal) :
    countryElemSpec cmap v =
      (cmap.lookup (strStrip (pyStr v))).getD ("ID_" ++ pyStr v) := by
  cases h : cmap.lookup (strStrip (pyStr v)) <;> simp [countryElemSpec, h]

theorem countryElemSpec_fun_eq (cmap : List (String × String)) :
    countryElemSpec cmap =
      fun v => (cmap.lookup (strStrip (pyStr v))).getD ("ID_" ++ pyStr v) :=
  funext (countryElemSpec_eq cmap)

/-- Counterexample to C5 as stated: the numeric coercion retry is applied
to scalars only.  The scalar `"3.0"` maps to `MRN` under Marionnaud, but
inside a collection the same value yields the synthetic `ID_3.0` — the
coercion rule is not applied uniformly to collection elements. -/
theorem map_country_id_counterexample :
    map_country_id (PyVal.list [PyVal.str "3.0"]) "Marionnaud" = "ID_3.0" ∧
      map_country_id (PyVal.str "3.0") "Marionnaud" = "MRN" ∧
      "ID_3.0" ≠ "MRN" :=
  ⟨by decide, by decide, by decide⟩

/-- C5 (amended): missing values and empty collections map to Unknown; a
non-empty collection is mapped element-wise by direct stripped-string
lookup (unmapped elements becoming `ID_` labels, no coercion retry) and
joined in order with `, `; a scalar is mapped by direct lookup with the
float→int coercion retry, else its `ID_` label. -/
theorem map_country_id_spec (bu_name : String) :
    map_country_id PyVal.none bu_name = "Unknown" ∧
      map_country_id (PyVal.list []) bu_name = "Unknown" ∧
      (∀ l : List PyVal, l ≠ [] →
        map_country_id (PyVal.list l) bu_name =
          String.intercalate ", "
            (l.map (countryElemSpec ((COUNTRY_MAPPINGS.lookup bu_name).getD [])))) ∧
      (∀ n : Int,
        map_country_id (PyVal.int n) bu_name =
          countryScalarSpec ((COUNTRY_MAPPINGS.lookup bu_name).getD []) (toString n)) ∧
      (∀ s : String,
        map_country_id (PyVal.str s) bu_name =
          countryScalarSpec ((COUNTRY_MAPPINGS.lookup bu_name).getD []) s) := by
  refine ⟨rfl, rfl, fun l hl => ?_, fun n => rfl, fun s => rfl⟩
  cases l with
  | nil => exact absurd rfl hl
  | cons a t => simp [map_country_id, countryElemSpec_fun_eq]

/-- Witness for C5 at the spec's country-list example. -/
theorem map_country_id_spec_witness :
    map_country_id (PyVal.list [PyVal.str "3", PyVal.str "9"]) "Marionnaud" =
        String.intercalate ", "
          (List.map (countryElemSpec ((COUNTRY_MAPPINGS.lookup "Marionnaud").getD []))
            [PyVal.str "3", PyVal.str "9"]) ∧
      map_country_id (PyVal.list [PyVal.str "3", PyVal.str "9"]) "Marionnaud" = "MRN, MFR" :=
  ⟨(map_country_id_spec "Marionnaud").2.2.1 [PyVal.str "3", PyVal.str "9"]
      (List.cons_ne_nil _ _),
    by decide⟩

/-- On canonical statuses the `Automated -` substring test picks out
exactly the four automated labels. -/
theorem filter_strContains_eq (l : List SummaryRow)
    (h : ∀ r ∈ l, r.status ∈ canonicalStatuses) :
    l.filter (fun r => strContains r.status "Automated -") = l.filter isAutomatedLabel := by
  refine List.filter_congr fun r hrl => ?_
  have hr := h r hrl
  simp only [canonicalStatuses, List.mem_cons, List.not_mem_nil, or_false] at hr
  rcases hr with h1 | h1 | h1 | h1 | h1 | h1 | h1 <;> simp only [isAutomatedLabel, h1] <;> decide

/-- The per-epic row of the pivot satisfies the claimed per-group formulas
whenever the statuses are canonical. -/
theorem epicRow_spec (df : List SummaryRow) (e : String)
    (h : ∀ r ∈ df, r.status ∈ canonicalStatuses) :
    (epicRow df e).automated =
        sumCount ((df.filter (fun r => r.epic = e)).filter isAutomatedLabel) ∧
      (epicRow df e).to_be_automated =
        statusCount (df.filter (fun r => r.epic = e)) "To Be Automated" ∧
      (epicRow df e).na = statusCount (df.filter (fun r => r.epic = e)) "N/A" ∧
      (epicRow df e).not_automated =
        statusCount (df.filter (fun r => r.epic = e)) "Not Automated" ∧
      (epicRow df e).total =
        (epicRow df e).automated + (epicRow df e).to_be_automated + (epicRow df e).na +
          (epicRow df e).not_automated ∧
      (epicRow df e).effective_total =
        ((epicRow df e).total : Int) - ((epicRow df e).na : Int) ∧
      ((epicRow df e).effective_total ≤ 0 → (epicRow df e).coverage_pct = 0) ∧
      (0 < (epicRow df e).effective_total →
        (epicRow df e).coverage_pct =
          round1 (((epicRow df e).automated : ℚ) /
            ((epicRow df e).effective_total : ℚ) * 100)) := by
  have hg : ∀ r ∈ df.filter (fun r => r.epic = e), r.status ∈ canonicalStatuses :=
    fun r hr => h r (List.mem_filter.mp hr).1
  have hfc := filter_strContains_eq (df.filter (fun r => r.epic = e)) hg
  have hsplit := sumCount_split (df.filter (fun r => r.epic = e)) hg
  have hna : statusCount (df.filter (fun r => r.epic = e)) "N/A" ≤
      sumCount (df.filter (fun r => r.epic = e)) := sumCount_filter_le _ _
  refine ⟨?_, rfl, rfl, rfl, ?_, rfl, fun h0 => ?_, fun h0 => ?_⟩
  · simp only [epicRow]
    rw [hfc]
  · simp only [epicRow]
    rw [hfc]
    omega
  · simp only [epicRow] at h0 ⊢
    have hz : (sumCount (df.filter (fun r => r.epic = e)) : Int) -
        (statusCount (df.filter (fun r => r.epic = e)) "N/A" : Int) = 0 := by omega
    simp [hz]
  · simp only [epicRow] at h0 ⊢
    rw [if_neg (by omega)]

/-- The epic pivot property claimed by the spec: one row per distinct epic
with the per-group sums, the four-bucket total, the effective total, the
rounded coverage with its zero guard, and the descending coverage order. -/
def EpicPivotOK (df : List SummaryRow) : Prop :=
  ((calculate_epic_metrics df).map EpicPivotRow.epic).Perm (df.map SummaryRow.epic).dedup ∧
    List.Sorted covGE (calculate_epic_metrics df) ∧
    ∀ p ∈ calculate_epic_metrics df,
      p.automated = sumCount ((df.filter (fun r => r.epic = p.epic)).filter isAutomatedLabel) ∧
        p.to_be_automated = statusCount (df.filter (fun r => r.epic = p.epic)) "To Be Automated" ∧
        p.na = statusCount (df.filter (fun r => r.epic = p.epic)) "N/A" ∧
        p.not_automated = statusCount (df.filter (fun r => r.epic = p.epic)) "Not Automated" ∧
        p.total = p.automated + p.to_be_automated + p.na + p.not_automated ∧
        p.effective_total = (p.total : Int) - (p.na : Int) ∧
        (p.effective_total ≤ 0 → p.coverage_pct = 0) ∧
        (0 < p.effective_total →
          p.coverage_pct = round1 ((p.automated : ℚ) / (p.effective_total : ℚ) * 100))

/-- C6: over any summary table with canonical statuses the epic pivot
satisfies `EpicPivotOK`. -/
theorem calculate_epic_metrics_spec (df : List SummaryRow)
    (h : ∀ r ∈ df, r.status ∈ canonicalStatuses) : EpicPivotOK df := by
  refine ⟨?_, List.sorted_insertionSort _ _, ?_⟩
  · have h1 : (calculate_epic_metrics df).Perm ((epicKeys df).map (epicRow df)) :=
      List.perm_insertionSort _ _
    have h3 : ((epicKeys df).map (epicRow df)).map EpicPivotRow.epic = epicKeys df := by
      rw [List.map_map]
      have hc : EpicPivotRow.epic ∘ epicRow df = id := funext fun e => rfl
      rw [hc, List.map_id]
    have h4 : (epicKeys df).Perm (df.map SummaryRow.epic).dedup :=
      List.perm_insertionSort _ _
    exact (h1.map EpicPivotRow.epic).trans (by rw [h3]; exact h4)
  · intro p hp
    have hp' : p ∈ (epicKeys df).map (epicRow df) :=
      (List.perm_insertionSort _ _).mem_iff.mp hp
    obtain ⟨e, _he, rfl⟩ := List.mem_map.mp hp'
    simpa only [show (epicRow df e).epic = e from rfl] using epicRow_spec df e h

/-- Witness for C6 at the repository's own metrics test fixture. -/
theorem calculate_epic_metrics_spec_witness : EpicPivotOK sampleDf :=
  calculate_epic_metrics_spec sampleDf (by decide)

/-- The grouped table's counts always add up to the number of grouped
keys. -/
theorem sumCount_groupCount (keys : List CaseKey) :
    sumCount (groupCount keys) = keys.length := by
  simp only [groupCount, sumCount, List.map_map]
  have hc : (SummaryRow.count ∘ fun k : CaseKey =>
      ({ epic := k.epic, status := k.status, device := k.device, country := k.country,
         priority := k.priority, count := keys.count k } : SummaryRow)) =
      fun k => keys.count k := funext fun k => rfl
  rw [hc]
  exact List.sum_map_count_dedup_eq_length keys

/-- A one-case frame whose single case carries the unmapped primary status
code 99. -/
def cexDf : Df :=
  { columns := ["custom_automation_status"],
    rows := [[("custom_automation_status", PyVal.int 99)]] }

/-- Counterexample to C1 as stated: a case whose primary status code is
unmapped (99) is not excluded — it is classified `Not Automated` and
counted, so the Count total is 1 while the number of cases with a
resolvable primary status is 0. -/
theorem process_counterexample :
    process cexDf "Marionnaud" =
        [{ epic := "No Epic Assigned", status := "Not Automated", device := "Both",
           country := "Unknown", priority := "Unknown", count := 1 }] ∧
      cexDf.rows.countP
          (fun r => (map_automation_status_java (rowGet r "custom_automation_status")).isSome) =
        0 ∧
      sumCount (process cexDf "Marionnaud") = 1 :=
  ⟨by decide, by decide, by decide⟩

/-- C1 (amended): when the input is non-empty and the primary status field
resolves, the Count column of the emitted table sums to the total number of
raw cases — cases with an unmapped or missing primary status code are
retained (resolved through the remaining statuses), not excluded. -/
theorem process_total_count (df : Df) (bu_name : String) (hne : df.rows ≠ [])
    (jf : String) (hjf : find_field df.columns "java" = some jf) :
    sumCount (process df bu_name) = df.rows.length := by
  have hne' : df.rows.isEmpty = false := by
    cases hrows : df.rows with
    | nil => exact absurd hrows hne
    | cons a t => rfl
  simp only [process, hne', Bool.false_eq_true, if_false, hjf]
  rw [sumCount_groupCount, List.length_map]

/-- Witness for C1 at the one-case frame. -/
theorem process_total_count_witness :
    sumCount (process cexDf "Marionnaud") = cexDf.rows.length :=
  process_total_count cexDf "Marionnaud" (List.cons_ne_nil _ _)
    "custom_automation_status" (by decide)

/-- C7: the pipeline never raises on degenerate input — an empty sequence
of raw cases yields the empty table, and an unresolvable primary status
field yields the empty table. -/
theorem process_degenerate (columns : List String)
    (rows : List (List (String × PyVal))) (bu_name : String) :
    process { columns := columns, rows := [] } bu_name = [] ∧
      (find_field columns "java" = Option.none →
        process { columns := columns, rows := rows } bu_name = []) := by
  refine ⟨rfl, fun hj => ?_⟩
  simp [process, hj]

/-- Witness for C7: a schema with no primary status alias. -/
theorem process_degenerate_witness :
    process { columns := ["other_field"], rows := [] } "Marionnaud" = [] ∧
      process { columns := ["other_field"], rows := [[("other_field", PyVal.int 1)]] }
          "Marionnaud" = [] :=
  ⟨(process_degenerate ["other_field"] [] "Marionnaud").1,
    (process_degenerate ["other_field"] [[("other_field", PyVal.int 1)]] "Marionnaud").2
      (by decide)⟩

/-- C2: the Status Resolver implements exactly the nine-rule precedence of
the spec (checked top to bottom, first match wins) for every combination of
the three per-framework statuses, each possibly absent. -/
theorem determine_final_status_matches_spec :
    ∀ java secondary_desktop secondary_mobile : Option St,
      determine_final_status (java.map stStr) (secondary_desktop.map stStr)
          (secondary_mobile.map stStr) =
        resolve_final_status_spec java secondary_desktop secondary_mobile := by
  decide

/-- C10: the Status Resolver is total over absent inputs — it always
returns one of the seven canonical labels, whatever the three inputs are,
and with all three absent it returns Not Automated. -/
theorem determine_final_status_total :
    determine_final_status Option.none Option.none Option.none = "Not Automated" ∧
      ∀ java_status testim_desktop testim_mobile : Option String,
        determine_final_status java_status testim_desktop testim_mobile ∈ canonicalStatuses := by
  refine ⟨by decide, fun java_status testim_desktop testim_mobile => ?_⟩
  unfold determine_final_status
  split_ifs <;> simp [canonicalStatuses]
